import Mathlib

/-!
Verification of the money-tracker-bot extraction-and-reconciliation pipeline.

Go strings are modeled as lists of characters (`Str`). Each definition below
is a shallow embedding of a function of the repository:

* `ensurePositiveAmount`, `trimJson`  — internal/adapters/gemini/gemini.go
* `processOne` / `processCandidates`  — the candidate loop shared verbatim by
  `ReadImageToTransaction` and `TextToTransaction` in gemini.go
* `TextToTransaction`, `ReadImageToTransaction` — gemini.go (external effects
  — the backend call, the image read — are passed in as oracle arguments)
* `BuildPrompt`                       — internal/common/prompt.go
* `AppendRow`, `summaryScan`          — internal/adapters/google/spreadsheet/client.go
* `HandleImageInput`, `HandleTextInput` — internal/service/transactions/svc.go
-/

namespace MoneyTracker

/-- Go strings, modeled as lists of characters. -/
abbrev Str := List Char

/-- Models Go strings.TrimPrefix: removes `pre` once from the front when it is
a leading run of `s`; otherwise returns `s` unchanged. -/
def trimLead (s pre : Str) : Str :=
  if pre.isPrefixOf s then s.drop pre.length else s

/-- Models Go strings.TrimSuffix. -/
def trimTrail (s suf : Str) : Str :=
  if suf.isSuffixOf s then s.take (s.length - suf.length) else s

/-- Whitespace predicate used by Go strings.TrimSpace (ASCII fragment of
unicode.IsSpace; the inputs of interest are ASCII). -/
def isSpaceGo (c : Char) : Bool :=
  c = ' ' || c = '\t' || c = '\n' || c = '\r' || c = '\x0b' || c = '\x0c'

/-- Models Go strings.TrimSpace. -/
def trimSpaceGo (s : Str) : Str :=
  ((s.dropWhile isSpaceGo).reverse.dropWhile isSpaceGo).reverse

/-- Models Go strings.Contains: `sub` occurs as a contiguous run of `s`. -/
def containsSub (sub : Str) : Str → Bool
  | [] => sub.isEmpty
  | c :: rest => sub.isPrefixOf (c :: rest) || containsSub sub rest

/-- gemini.go `ensurePositiveAmount`: `strings.TrimPrefix(amount, "-")` —
removes a single leading minus sign if present. -/
def ensurePositiveAmount (amount : Str) : Str :=
  trimLead amount ['-']

/-- gemini.go `trimJson`: trim whitespace, strip a leading "```json" fence
marker and a trailing "```" marker, trim again. -/
def trimJson (jsonText : Str) : Str :=
  let s1 := trimSpaceGo jsonText
  let s2 := trimLead s1 ("```json".data)
  let s3 := trimTrail s2 ("```".data)
  trimSpaceGo s3

/-- internal/domain/transactions `Transaction`: the canonical extracted
record. All fields are Go strings; the Go zero value has every field "". -/
structure Transaction where
  transactionDate : Str
  amount : Str
  amountCurrency : Str
  notes : Str
  destinationName : Str
  destinationNumber : Str
  sourceAccount : Str
  category : Str
  title : Str
  fileID : Str
  createdBy : Str
  warningMessage : Str
deriving DecidableEq, Repr

/-- The Go zero value of `Transaction` (declared `var transaction Transaction`
in the candidate loops of gemini.go). -/
def Transaction.zero : Transaction :=
  ⟨[], [], [], [], [], [], [], [], [], [], [], []⟩

/-- A successfully decoded JSON object of the Transaction wire shape:
`some v` on a field means the JSON object supplies that key with value `v`;
`none` means the key is absent. Mirrors the snake_case wire keys of the
struct tags in transactions.go. -/
structure TransactionJson where
  transactionDate : Option Str := none
  amount : Option Str := none
  amountCurrency : Option Str := none
  notes : Option Str := none
  destinationName : Option Str := none
  destinationNumber : Option Str := none
  sourceAccount : Option Str := none
  category : Option Str := none
  title : Option Str := none
  fileID : Option Str := none
  createdBy : Option Str := none
  warningMessage : Option Str := none
deriving DecidableEq, Repr

/-- Go `json.Unmarshal(data, &transaction)` on a successful decode: keys
present in the JSON object overwrite the corresponding struct field, keys
absent leave the existing field value in place. -/
def unmarshalInto (t : Transaction) (j : TransactionJson) : Transaction where
  transactionDate := j.transactionDate.getD t.transactionDate
  amount := j.amount.getD t.amount
  amountCurrency := j.amountCurrency.getD t.amountCurrency
  notes := j.notes.getD t.notes
  destinationName := j.destinationName.getD t.destinationName
  destinationNumber := j.destinationNumber.getD t.destinationNumber
  sourceAccount := j.sourceAccount.getD t.sourceAccount
  category := j.category.getD t.category
  title := j.title.getD t.title
  fileID := j.fileID.getD t.fileID
  createdBy := j.createdBy.getD t.createdBy
  warningMessage := j.warningMessage.getD t.warningMessage

/-- One part of a backend candidate's content: genai parts are either text
(contributing to the JSON payload) or non-text (skipped by the loop). -/
inductive GenPart where
  | text (s : Str)
  | blob
deriving DecidableEq, Repr

/-- One completion candidate of the backend response. `contentNil` models
`cand.Content == nil`; `parts` models `cand.Content.Parts`. -/
structure Candidate where
  contentNil : Bool
  parts : List GenPart
deriving DecidableEq, Repr

/-- The text accumulation of the inner loop of gemini.go: concatenate the
text parts of a candidate, in order, skipping non-text parts. -/
def candidateText (ps : List GenPart) : Str :=
  ps.foldl (fun acc p => match p with | .text s => acc ++ s | .blob => acc) []

/-- Outcome of `json.Unmarshal` on a sanitized payload. encoding/json checks
syntax before decoding, so a malformed payload (`failSyntax`) reports an
error without writing any field. A well-formed payload that does not fit
the struct (`failType`) writes the well-typed fields it can decode and then
reports an UnmarshalTypeError — the destination is mutated even though an
error is returned. `ok` is a full decode success. -/
inductive DecodeResult where
  | failSyntax
  | failType (j : TransactionJson)
  | ok (j : TransactionJson)
deriving DecidableEq, Repr

/-- Whether an Unmarshal outcome is a success (a nil error in Go). -/
def DecodeResult.isOk : DecodeResult → Bool
  | .ok _ => true
  | .failSyntax => false
  | .failType _ => false

/-- A decode oracle: the outcome of `json.Unmarshal` on each sanitized
payload. -/
abbrev Decode := Str → DecodeResult

/-- One iteration of the candidate loop shared by `ReadImageToTransaction`
and `TextToTransaction`: skip candidates with nil content or no parts,
sanitize and decode the concatenated text, `continue` on decode failure
(a syntax failure wrote nothing, a type failure left its well-typed fields
in the accumulator, and in both cases the normalization line is skipped),
and on success overwrite the accumulator and re-normalize its amount. -/
def processOne (decode : Decode) (t : Transaction) (c : Candidate) : Transaction :=
  if c.contentNil || c.parts.isEmpty then t
  else
    match decode (trimJson (candidateText c.parts)) with
    | .failSyntax => t
    | .failType j => unmarshalInto t j
    | .ok j =>
      let t1 := unmarshalInto t j
      { t1 with amount := ensurePositiveAmount t1.amount }

/-- The full candidate loop of gemini.go, started from the zero accumulator
by both extraction entry points. -/
def processCandidates (decode : Decode) (t : Transaction) (cands : List Candidate) : Transaction :=
  cands.foldl (processOne decode) t

/-- gemini.go `TextToTransaction`. The backend call is an oracle: `.error e`
models a failing `GenerateContent` call, `.ok cands` a response with the
given candidates. Returns the Go pair `(*Transaction, error)` as
`(Option Transaction, Option Str)`. -/
def TextToTransaction (decode : Decode) (resp : Except Str (List Candidate)) :
    Option Transaction × Option Str :=
  match resp with
  | .error e => (none, some ("gemini generate content error: ".data ++ e))
  | .ok cands => (some (processCandidates decode Transaction.zero cands), none)

/-- gemini.go `ReadImageToTransaction`. `readErr` models the outcome of
`os.ReadFile` on the image path; the backend call is an oracle as in
`TextToTransaction`. The `os.Remove` cleanup only logs and does not affect
the returned pair, so it is not modeled. -/
def ReadImageToTransaction (decode : Decode) (readErr : Option Str)
    (resp : Except Str (List Candidate)) : Option Transaction × Option Str :=
  match readErr with
  | some e => (none, some ("failed to read image: ".data ++ e))
  | none =>
    match resp with
    | .error e => (none, some ("gemini generate content error: ".data ++ e))
    | .ok cands => (some (processCandidates decode Transaction.zero cands), none)

/-- prompt.go `TransactionCategoryList`. -/
def TransactionCategoryList : List Str :=
  ["Groceries".data, "Utilities".data, "Entertainment".data, "Gifting".data,
   "Household".data, "Eating Out".data, "Health".data, "Transportation".data,
   "Savings".data, "Emergency".data, "Rent House".data]

/-- prompt.go `SourceAccountList`. -/
def SourceAccountList : List Str :=
  ["GOPAY".data, "BCA".data, "OVO".data, "DANA".data, "ISAKU".data,
   "MANDIRI".data, "BNI".data, "BRI".data, "CASH".data]

/-- Models Go strings.Join. -/
def goJoin : List Str → Str → Str
  | [], _ => []
  | [x], _ => x
  | x :: xs, sep => x ++ sep ++ goJoin xs sep

/-- prompt.go `PromptParams`. -/
structure PromptParams where
  isImage : Bool
  fileID : Str := []
  message : Str := []
  currentDate : Str := []
deriving DecidableEq, Repr

/-- prompt.go `BuildPrompt`: the field list (with the image-mode or text-mode
extras), the input description, the optional date line, and the final
template with the worked example, exactly as assembled by the Go source. -/
def BuildPrompt (params : PromptParams) : Str :=
  let categoryStr := goJoin TransactionCategoryList " / ".data
  let sourceAccountStr := goJoin SourceAccountList " / ".data
  let fields :=
    ("Fields:\n  - title (summary of the transaction notes)\n  - transaction_date (format always YYYY-MM-DD)\n  - amount (ALWAYS use positive numbers in rupiah. Format: 1,000,000 for 1 million, 100,000 for 100k. Never use negative numbers, the transaction type is determined by context words like \"spent\", \"bought\", \"earned\", \"received\")\n  - notes (details of the transaction, containing items bought)\n  - category (".data)
      ++ categoryStr ++ ")".data
  let fields :=
    if params.isImage then
      fields ++ "\n  - destination_number\n  - source_account (only ".data
        ++ sourceAccountStr ++ ")\n  - file_id ".data ++ params.fileID
    else
      fields ++ "\n  - file_id should be empty".data
  let inputDesc :=
    if params.isImage then "from the image".data
    else "from the following message: ".data ++ params.message
  let dateLine :=
    if params.isImage then []
    else "  - transaction_date should be ".data ++ params.currentDate
      ++ " (format always YYYY-MM-DD)\n".data
  let exampleFileID := if params.isImage then params.fileID else []
  ("Please extract the following data ".data) ++ inputDesc
    ++ (" and return it as valid JSON.\n\n".data) ++ fields ++ "\n".data ++ dateLine
    ++ ("IMPORTANT:\nRespond ONLY with raw JSON.\nNo explanation, no formatting, no code blocks.\n\nExample:\n\x7b\n  \"title\": \"Spent on Lunch at ABC Cafe\",\n  \"transaction_date\": \"2025-03-30\",\n  \"amount\": \"150,000\",\n  \"notes\": \"Lunch payment at ABC cafe - always use positive amounts regardless of whether it\x27s spending or earning\",\n  \"destination_number\": \"0524012911\",\n  \"source_account\": \"Gopay\",\n  \"category\": \"Eating Out\",\n  \"file_id\": \"".data)
    ++ exampleFileID ++ "\"\n\x7d".data

/-- spreadsheet/client.go `CategorySummary`. -/
structure CategorySummary where
  category : Str
  monthlyExpenses : Str
  monthlyBudget : Str
  budgetLeft : Str
  quota : Str
  quotaLeft : Str
deriving DecidableEq, Repr

/-- The Go zero value of `CategorySummary` (`var result CategorySummary`). -/
def CategorySummary.zero : CategorySummary := ⟨[], [], [], [], [], []⟩

/-- The CategorySummary built from a matching summary row inside `AppendRow`:
the first four cells verbatim, and the optional quota columns defaulting to
"" when the row has fewer than 5 or 6 cells. Summary cells are modeled as
strings (`fmt.Sprintf("%v", cell)` is the identity on string cells). -/
def summaryFromRow (row : List Str) : CategorySummary where
  category := row.getD 0 []
  monthlyExpenses := row.getD 1 []
  monthlyBudget := row.getD 2 []
  budgetLeft := row.getD 3 []
  quota := if 4 < row.length then row.getD 4 [] else []
  quotaLeft := if 5 < row.length then row.getD 5 [] else []

/-- The linear scan of `AppendRow` over the summary rows: the first row with
at least 4 cells whose first cell equals the transaction's category wins
(the loop breaks there); if none matches, the zero value is returned. -/
def summaryScan (cat : Str) : List (List Str) → CategorySummary
  | [] => CategorySummary.zero
  | row :: rest =>
    if 4 ≤ row.length ∧ row.getD 0 [] = cat then summaryFromRow row
    else summaryScan cat rest

/-- The row appended to the detail table by `AppendRow` (columns in order:
date, category, reserved blank, notes, amount, createdBy, fileID,
append timestamp). -/
def detailRow (trx : Transaction) (createdAt : Str) : List Str :=
  [trx.transactionDate, trx.category, [], trx.notes, trx.amount,
   trx.createdBy, trx.fileID, createdAt]

/-- spreadsheet/client.go `AppendRow`. External effects are oracle inputs:
`tzErr` is the outcome of `time.LoadLocation("Asia/Bangkok")`, `appendErr`
the outcome of the detail-table append call, `summaryRead` the outcome of
the summary-table read. A failing summary read is logged and swallowed:
the zero summary is returned with a nil error. -/
def AppendRow (trx : Transaction) (tzErr appendErr : Option Str)
    (summaryRead : Except Str (List (List Str))) : CategorySummary × Option Str :=
  match tzErr with
  | some e => (CategorySummary.zero, some ("failed to load timezone: ".data ++ e))
  | none =>
    match appendErr with
    | some e => (CategorySummary.zero, some ("failed to insert data to sheet: ".data ++ e))
    | none =>
      match summaryRead with
      | .error _ => (CategorySummary.zero, none)
      | .ok rows => (summaryScan trx.category rows, none)

/-- Outcome of a service handler call, distinguishing the run-time panic of
dereferencing a nil `*Transaction` from a normal return. -/
inductive HandlerOutcome where
  | ok (t : Transaction)
  | fail (e : Str)
  | nilPanic
deriving DecidableEq, Repr

/-- svc.go `HandleImageInput`, given the pair the chosen AI port returned for
`ReadImageToTransaction`: a non-nil error is returned as-is; otherwise the
handler assigns `trx.CreatedBy = uploader`, which panics when the port
returned a nil transaction with a nil error. -/
def HandleImageInput (portResult : Option Transaction × Option Str)
    (uploader : Str) : HandlerOutcome :=
  match portResult.2 with
  | some e => .fail e
  | none =>
    match portResult.1 with
    | some trx => .ok { trx with createdBy := uploader }
    | none => .nilPanic

/-- svc.go `HandleTextInput`: same shape as `HandleImageInput`, with the
port's `TextToTransaction` result. -/
def HandleTextInput (portResult : Option Transaction × Option Str)
    (uploader : Str) : HandlerOutcome :=
  match portResult.2 with
  | some e => .fail e
  | none =>
    match portResult.1 with
    | some trx => .ok { trx with createdBy := uploader }
    | none => .nilPanic

/-! ### Helper lemmas about the amount normalizer -/

theorem ensurePositiveAmount_cons (t : Str) : ensurePositiveAmount ('-' :: t) = t := by
  simp [ensurePositiveAmount, trimLead, List.isPrefixOf]

theorem ensurePositiveAmount_of_head (s : Str) (h : s.head? ≠ some '-') :
    ensurePositiveAmount s = s := by
  cases s with
  | nil => decide
  | cons c cs =>
    have hc : ¬ c = '-' := by
      intro e
      exact h (by simp [e])
    have hp : (['-'] : Str).isPrefixOf (c :: cs) = false := by
      simp [List.isPrefixOf]
      intro e
      exact hc e.symm
    simp [ensurePositiveAmount, trimLead, hp]

/-- C1: for every input string beginning with a '-', `ensurePositiveAmount`
returns the input with exactly that one leading '-' removed; for every
input not beginning with '-', it returns the input unchanged. The function
is total by construction, so it never fails. -/
theorem c1_sign_removal (s : Str) :
    (∀ t, s = '-' :: t → ensurePositiveAmount s = t) ∧
    (s.head? ≠ some '-' → ensurePositiveAmount s = s) := by
  constructor
  · rintro t rfl
    exact ensurePositiveAmount_cons t
  · exact ensurePositiveAmount_of_head s

/-- Witness for C1 at the inputs "-50" (sign removed) and "70" (unchanged). -/
theorem c1_sign_removal_witness :
    ensurePositiveAmount "-50".data = "50".data ∧
    ensurePositiveAmount "70".data = "70".data :=
  ⟨(c1_sign_removal "-50".data).1 "50".data (by decide),
   (c1_sign_removal "70".data).2 (by decide)⟩

/-- C5 counterexample: normalization is not idempotent on "--1", a string
with more than one leading minus sign: the first pass yields "-1", the
second pass strips again and yields "1". -/
theorem c5_idempotence_counterexample :
    ensurePositiveAmount (ensurePositiveAmount "--1".data) ≠
      ensurePositiveAmount "--1".data := by
  decide

/-- C5 amended: amount normalization is idempotent for every string that
does not begin with two '-' characters (this covers "", "0", "-0",
"100.50" and "-100.50", but not multi-minus strings such as "--1"). -/
theorem c5_norm_idempotent (s : Str) (h : s.take 2 ≠ "--".data) :
    ensurePositiveAmount (ensurePositiveAmount s) = ensurePositiveAmount s := by
  cases s with
  | nil => decide
  | cons c cs =>
    by_cases hc : c = '-'
    · subst hc
      rw [ensurePositiveAmount_cons]
      apply ensurePositiveAmount_of_head
      cases cs with
      | nil => simp
      | cons d ds =>
        intro hd
        have hd' : d = '-' := by simpa using hd
        exact h (by simp [hd'])
    · have hh : (c :: cs).head? ≠ some '-' := by
        intro e
        exact hc (by simpa using e)
      rw [ensurePositiveAmount_of_head _ hh]
      exact ensurePositiveAmount_of_head _ hh

/-- Witness for C5 amended at the input "-100.50". -/
theorem c5_norm_idempotent_witness :
    ensurePositiveAmount (ensurePositiveAmount "-100.50".data) =
      ensurePositiveAmount "-100.50".data :=
  c5_norm_idempotent "-100.50".data (by decide)

/-- C6 counterexample: the normalized output can still contain a sign
character: normalizing "--1" yields "-1", which contains '-'. -/
theorem c6_no_sign_counterexample : '-' ∈ ensurePositiveAmount "--1".data := by
  decide

/-- C6 amended: for every input string in which '-' does not occur past the
first character, the output of amount normalization contains no '-'. -/
theorem c6_no_sign (s : Str) (h : '-' ∉ s.drop 1) :
    '-' ∉ ensurePositiveAmount s := by
  cases s with
  | nil =>
    rw [ensurePositiveAmount_of_head _ (by simp)]
    simp
  | cons c cs =>
    have hcs : '-' ∉ cs := by simpa using h
    by_cases hc : c = '-'
    · subst hc
      rw [ensurePositiveAmount_cons]
      exact hcs
    · have hh : (c :: cs).head? ≠ some '-' := by
        intro e
        exact hc (by simpa using e)
      rw [ensurePositiveAmount_of_head _ hh]
      intro hm
      rcases List.mem_cons.mp hm with h1 | h2
      · exact hc h1.symm
      · exact hcs h2

/-- Witness for C6 amended at the input "-100". -/
theorem c6_no_sign_witness : '-' ∉ ensurePositiveAmount "-100".data :=
  c6_no_sign "-100".data (by decide)

/-! ### Helper lemmas about the candidate loop -/

/-- The candidate writes nothing to the accumulator: it has nil content or
no parts, or its sanitized payload fails to decode with a syntax error
(encoding/json reports such an error before writing any field). A
type-error failure is deliberately not covered: it mutates the
accumulator. -/
def writesNothing (decode : Decode) (c : Candidate) : Prop :=
  (c.contentNil = true ∨ c.parts = []) ∨
    decode (trimJson (candidateText c.parts)) = .failSyntax

theorem processOne_of_writesNothing (decode : Decode) (t : Transaction)
    (c : Candidate) (h : writesNothing decode c) : processOne decode t c = t := by
  rcases h with (h1 | h2) | h3
  · simp [processOne, h1]
  · simp [processOne, h2]
  · unfold processOne
    by_cases hg : (c.contentNil || c.parts.isEmpty) = true
    · simp [hg]
    · simp [hg, h3]

theorem processCandidates_of_writesNothing (decode : Decode) (t : Transaction)
    (cands : List Candidate) (h : ∀ c ∈ cands, writesNothing decode c) :
    processCandidates decode t cands = t := by
  induction cands generalizing t with
  | nil => rfl
  | cons c cs ih =>
    unfold processCandidates at *
    simp only [List.foldl_cons]
    rw [processOne_of_writesNothing decode t c (h c (by simp))]
    exact ih t (fun c' hc' => h c' (by simp [hc']))

def jsonC2 : TransactionJson := { title := some "Lunch".data }

def decodeC2 : Decode := fun _ => .failType jsonC2

def candC2 : Candidate := ⟨false, [GenPart.text "x".data]⟩

/-- C2 counterexample: the only candidate fails to decode (well-formed JSON
with a type mismatch, e.g. a numeric amount alongside a string title), so
no candidate decodes successfully — yet the returned transaction is not the
zero value: Unmarshal wrote the well-typed title field before returning
the UnmarshalTypeError, and the loop continued with the mutated
accumulator. The error is still nil. -/
theorem c2_nonzero_counterexample :
    (decodeC2 (trimJson (candidateText candC2.parts))).isOk = false ∧
    TextToTransaction decodeC2 (.ok [candC2]) =
      (some { Transaction.zero with title := "Lunch".data }, none) ∧
    { Transaction.zero with title := "Lunch".data } ≠ Transaction.zero := by
  decide

/-- C2 amended: when every candidate of the backend response is skipped or
fails to decode with a syntax error (writing no fields), both extraction
calls return the zero-value Transaction (as a non-nil pointer) together
with a nil error; and whenever the backend call itself succeeds, both calls
return a nil error regardless of decode outcomes, so a failure is never
reported — but a candidate failing with a type error can leave fields in
the returned transaction, so the zero value is not guaranteed for
arbitrary decode failures. -/
theorem c2_zero_when_nothing_written (decode : Decode) (cands : List Candidate)
    (h : ∀ c ∈ cands, writesNothing decode c) :
    (TextToTransaction decode (.ok cands) = (some Transaction.zero, none) ∧
      ReadImageToTransaction decode none (.ok cands) = (some Transaction.zero, none)) ∧
    ∀ cs : List Candidate,
      (TextToTransaction decode (.ok cs)).2 = none ∧
      (ReadImageToTransaction decode none (.ok cs)).2 = none := by
  have hp := processCandidates_of_writesNothing decode Transaction.zero cands h
  exact ⟨⟨by simp [TextToTransaction, hp], by simp [ReadImageToTransaction, hp]⟩,
    fun cs => ⟨rfl, rfl⟩⟩

/-- Witness for C2 amended: one candidate whose payload is malformed. -/
theorem c2_zero_when_nothing_written_witness :
    (TextToTransaction (fun _ => .failSyntax) (.ok [⟨false, [GenPart.text "x".data]⟩]) =
        (some Transaction.zero, none) ∧
      ReadImageToTransaction (fun _ => .failSyntax) none
          (.ok [⟨false, [GenPart.text "x".data]⟩]) =
        (some Transaction.zero, none)) ∧
    ∀ cs : List Candidate,
      (TextToTransaction (fun _ => .failSyntax) (.ok cs)).2 = none ∧
      (ReadImageToTransaction (fun _ => .failSyntax) none (.ok cs)).2 = none :=
  c2_zero_when_nothing_written (fun _ => .failSyntax)
    [⟨false, [GenPart.text "x".data]⟩] (fun _ _ => Or.inr rfl)

/-- C4: with two candidates where the first is malformed JSON (a syntax
failure, writing nothing) and the second decodes to an object supplying
amount "-100", the extraction call returns a transaction whose amount is
"100" and a nil error. -/
theorem c4_candidate_resilience (decode : Decode) (cA cB : Candidate)
    (j : TransactionJson)
    (hB : (cB.contentNil || cB.parts.isEmpty) = false)
    (hdA : decode (trimJson (candidateText cA.parts)) = .failSyntax)
    (hdB : decode (trimJson (candidateText cB.parts)) = .ok j)
    (hj : j.amount = some "-100".data) :
    ∃ t, TextToTransaction decode (.ok [cA, cB]) = (some t, none) ∧
      t.amount = "100".data := by
  refine ⟨processCandidates decode Transaction.zero [cA, cB], rfl, ?_⟩
  have h1 : processOne decode Transaction.zero cA = Transaction.zero :=
    processOne_of_writesNothing decode Transaction.zero cA (Or.inr hdA)
  unfold processCandidates
  simp only [List.foldl_cons, List.foldl_nil, h1]
  simp [processOne, hB, hdB, unmarshalInto, hj]
  decide

def jsonC4 : TransactionJson := { amount := some "-100".data }

def decodeC4 : Decode := fun s =>
  if s = "good".data then .ok jsonC4 else .failSyntax

def candC4bad : Candidate := ⟨false, [GenPart.text "bad".data]⟩

def candC4good : Candidate := ⟨false, [GenPart.text "good".data]⟩

/-- Witness for C4 on a concrete malformed/valid candidate pair. -/
theorem c4_candidate_resilience_witness :
    ∃ t, TextToTransaction decodeC4 (.ok [candC4bad, candC4good]) = (some t, none) ∧
      t.amount = "100".data :=
  c4_candidate_resilience decodeC4 candC4bad candC4good jsonC4
    (by decide) (by decide) (by decide) rfl

def jsonC7first : TransactionJson := { notes := some "first".data }

def jsonC7last : TransactionJson := { amount := some "-100".data }

def decodeC7 : Decode := fun s =>
  if s = "first".data then .ok jsonC7first
  else if s = "last".data then .ok jsonC7last
  else .failSyntax

def candC7first : Candidate := ⟨false, [GenPart.text "first".data]⟩

def candC7last : Candidate := ⟨false, [GenPart.text "last".data]⟩

/-- C7 counterexample: both candidates decode successfully and the last one
supplies amount "-100", yet the returned transaction's amount is "100" —
normalization means a field of the returned transaction does not equal the
value the last successfully decoded candidate supplies for it. -/
theorem c7_last_wins_counterexample :
    decodeC7 (trimJson (candidateText candC7first.parts)) = .ok jsonC7first ∧
    decodeC7 (trimJson (candidateText candC7last.parts)) = .ok jsonC7last ∧
    jsonC7last.amount = some "-100".data ∧
    TextToTransaction decodeC7 (.ok [candC7first, candC7last]) =
      (some { Transaction.zero with notes := "first".data, amount := "100".data },
        none) ∧
    "100".data ≠ "-100".data := by
  decide

/-- C7 amended: when the last successfully decoded candidate is followed
only by candidates that write nothing (skipped, or failing with a syntax
error — a trailing type-error failure would still mutate fields), the
returned transaction reflects that last successfully decoded candidate,
not the first: every field it supplies is returned verbatim, except
amount, which is returned with a single leading '-' removed by
normalization. -/
theorem c7_last_wins (decode : Decode) (pre post : List Candidate)
    (c : Candidate) (j : TransactionJson)
    (hg : (c.contentNil || c.parts.isEmpty) = false)
    (hdec : decode (trimJson (candidateText c.parts)) = .ok j)
    (hpost : ∀ c' ∈ post, writesNothing decode c') :
    ∃ t, TextToTransaction decode (.ok (pre ++ c :: post)) = (some t, none) ∧
      (∀ v, j.transactionDate = some v → t.transactionDate = v) ∧
      (∀ v, j.amount = some v → t.amount = ensurePositiveAmount v) ∧
      (∀ v, j.amountCurrency = some v → t.amountCurrency = v) ∧
      (∀ v, j.notes = some v → t.notes = v) ∧
      (∀ v, j.destinationName = some v → t.destinationName = v) ∧
      (∀ v, j.destinationNumber = some v → t.destinationNumber = v) ∧
      (∀ v, j.sourceAccount = some v → t.sourceAccount = v) ∧
      (∀ v, j.category = some v → t.category = v) ∧
      (∀ v, j.title = some v → t.title = v) ∧
      (∀ v, j.fileID = some v → t.fileID = v) ∧
      (∀ v, j.createdBy = some v → t.createdBy = v) ∧
      (∀ v, j.warningMessage = some v → t.warningMessage = v) := by
  have hsplit : processCandidates decode Transaction.zero (pre ++ c :: post) =
      processOne decode (processCandidates decode Transaction.zero pre) c := by
    unfold processCandidates
    rw [List.foldl_append]
    simp only [List.foldl_cons]
    exact processCandidates_of_writesNothing decode _ post hpost
  refine ⟨processCandidates decode Transaction.zero (pre ++ c :: post), rfl,
    ?_, ?_, ?_, ?_, ?_, ?_, ?_, ?_, ?_, ?_, ?_, ?_⟩ <;>
    (intro v hv; rw [hsplit]; simp [processOne, hg, hdec, unmarshalInto, hv])

/-- Witness for C7 amended: one earlier successful candidate, the last
candidate supplying amount "-100". -/
theorem c7_last_wins_witness :
    ∃ t, TextToTransaction decodeC7 (.ok ([candC7first] ++ candC7last :: [])) =
        (some t, none) ∧
      (∀ v, jsonC7last.transactionDate = some v → t.transactionDate = v) ∧
      (∀ v, jsonC7last.amount = some v → t.amount = ensurePositiveAmount v) ∧
      (∀ v, jsonC7last.amountCurrency = some v → t.amountCurrency = v) ∧
      (∀ v, jsonC7last.notes = some v → t.notes = v) ∧
      (∀ v, jsonC7last.destinationName = some v → t.destinationName = v) ∧
      (∀ v, jsonC7last.destinationNumber = some v → t.destinationNumber = v) ∧
      (∀ v, jsonC7last.sourceAccount = some v → t.sourceAccount = v) ∧
      (∀ v, jsonC7last.category = some v → t.category = v) ∧
      (∀ v, jsonC7last.title = some v → t.title = v) ∧
      (∀ v, jsonC7last.fileID = some v → t.fileID = v) ∧
      (∀ v, jsonC7last.createdBy = some v → t.createdBy = v) ∧
      (∀ v, jsonC7last.warningMessage = some v → t.warningMessage = v) :=
  c7_last_wins decodeC7 [candC7first] [] candC7last jsonC7last
    (by decide) (by decide) (by simp)

/-! ### AppendRow: error paths and the summary lookup -/

def trxFood : Transaction := { Transaction.zero with category := "Food".data }

/-- C3 counterexample: when the timezone load fails, `AppendRow` returns a
non-nil error even though the append to the detail table did not fail (it
was never attempted — its oracle outcome here is success), so "non-nil
error iff the append fails" is violated in the only-if direction. -/
theorem c3_append_iff_counterexample :
    (AppendRow trxFood (some "no tz data".data) none (.ok [])).2 ≠ none := by
  decide

/-- C3 amended: `AppendRow` returns a non-nil error iff the timezone load
fails or the append to the detail table fails; when both succeed but the
summary read fails, it returns the empty CategorySummary and a nil error. -/
theorem c3_append_error_paths (trx : Transaction) (tzErr appendErr : Option Str)
    (summaryRead : Except Str (List (List Str))) :
    ((AppendRow trx tzErr appendErr summaryRead).2 ≠ none ↔
      (tzErr ≠ none ∨ appendErr ≠ none)) ∧
    (tzErr = none → appendErr = none → ∀ e, summaryRead = .error e →
      AppendRow trx tzErr appendErr summaryRead = (CategorySummary.zero, none)) := by
  constructor
  · cases tzErr <;> cases appendErr <;> cases summaryRead <;> simp [AppendRow]
  · rintro rfl rfl e rfl
    rfl

/-- Witness for C3 amended: successful append, failing summary read. -/
theorem c3_append_error_paths_witness :
    AppendRow trxFood none none (.error "boom".data) = (CategorySummary.zero, none) :=
  (c3_append_error_paths trxFood none none (.error "boom".data)).2 rfl rfl
    "boom".data rfl

theorem summaryScan_append (cat : Str) (pre rest : List (List Str))
    (h : ∀ r ∈ pre, ¬(4 ≤ r.length ∧ r.getD 0 [] = cat)) :
    summaryScan cat (pre ++ rest) = summaryScan cat rest := by
  induction pre with
  | nil => rfl
  | cons r rs ih =>
    simp only [List.cons_append, summaryScan]
    rw [if_neg (h r (by simp))]
    exact ih (fun r' hr' => h r' (by simp [hr']))

/-- C8: after a successful append, the summary lookup returns the values of
the first row with at least 4 cells whose first cell equals the
transaction's category — rows before it (in particular rows for other
categories) are never matched — with the first four cells carried verbatim
and quota/quotaLeft defaulting to "" for a 4-cell row. -/
theorem c8_summary_lookup (trx : Transaction) (pre post : List (List Str))
    (row : List Str)
    (hpre : ∀ r ∈ pre, ¬(4 ≤ r.length ∧ r.getD 0 [] = trx.category))
    (hlen : 4 ≤ row.length) (hcat : row.getD 0 [] = trx.category) :
    AppendRow trx none none (.ok (pre ++ row :: post)) = (summaryFromRow row, none) ∧
    (summaryFromRow row).category = row.getD 0 [] ∧
    (summaryFromRow row).monthlyExpenses = row.getD 1 [] ∧
    (summaryFromRow row).monthlyBudget = row.getD 2 [] ∧
    (summaryFromRow row).budgetLeft = row.getD 3 [] ∧
    (row.length = 4 →
      (summaryFromRow row).quota = [] ∧ (summaryFromRow row).quotaLeft = []) := by
  refine ⟨?_, rfl, rfl, rfl, rfl, ?_⟩
  · have hscan : summaryScan trx.category (pre ++ row :: post) = summaryFromRow row := by
      rw [summaryScan_append trx.category pre _ hpre]
      simp only [summaryScan]
      rw [if_pos ⟨hlen, hcat⟩]
    simp [AppendRow, hscan]
  · intro h4
    constructor <;> simp [summaryFromRow, h4]

def rowTransport : List Str :=
  ["Transport".data, "900".data, "2000".data, "1100".data]

def rowFood : List Str :=
  ["Food".data, "1000".data, "5000".data, "4000".data]

/-- Witness for C8: a "Transport" row ahead of the matching 4-cell "Food"
row. -/
theorem c8_summary_lookup_witness :
    AppendRow trxFood none none (.ok ([rowTransport] ++ rowFood :: [])) =
      (summaryFromRow rowFood, none) ∧
    (summaryFromRow rowFood).category = rowFood.getD 0 [] ∧
    (summaryFromRow rowFood).monthlyExpenses = rowFood.getD 1 [] ∧
    (summaryFromRow rowFood).monthlyBudget = rowFood.getD 2 [] ∧
    (summaryFromRow rowFood).budgetLeft = rowFood.getD 3 [] ∧
    (rowFood.length = 4 →
      (summaryFromRow rowFood).quota = [] ∧ (summaryFromRow rowFood).quotaLeft = []) :=
  c8_summary_lookup trxFood [rowTransport] [] rowFood
    (by decide) (by decide) (by decide)

set_option maxRecDepth 100000 in
/-- C9: prompt completeness. The image-mode prompt for fileId "testfile.jpg"
contains "from the image", "testfile.jpg", the source_account field marker
and the category field marker; the text-mode prompt for the given message
and date contains the message line, the date instruction, and the
instruction that file_id should be empty. -/
theorem c9_prompt_completeness :
    (containsSub "from the image".data
      (BuildPrompt ⟨true, "testfile.jpg".data, [], []⟩) = true) ∧
    (containsSub "testfile.jpg".data
      (BuildPrompt ⟨true, "testfile.jpg".data, [], []⟩) = true) ∧
    (containsSub "  - source_account (only ".data
      (BuildPrompt ⟨true, "testfile.jpg".data, [], []⟩) = true) ∧
    (containsSub "  - category (".data
      (BuildPrompt ⟨true, "testfile.jpg".data, [], []⟩) = true) ∧
    (containsSub "from the following message: Transfer 100k to Budi".data
      (BuildPrompt ⟨false, [], "Transfer 100k to Budi".data, "2025-07-10".data⟩) = true) ∧
    (containsSub "transaction_date should be 2025-07-10".data
      (BuildPrompt ⟨false, [], "Transfer 100k to Budi".data, "2025-07-10".data⟩) = true) ∧
    (containsSub "  - file_id should be empty".data
      (BuildPrompt ⟨false, [], "Transfer 100k to Budi".data, "2025-07-10".data⟩) = true) := by
  decide

/-- C10: when the extraction port returns a nil transaction with a nil
error, both handlers hit the nil dereference while stamping createdBy
instead of returning an error; the no-error branch is safe exactly when the
transaction pointer is non-nil, in which case createdBy is stamped with the
uploader. -/
theorem c10_nil_deref (uploader : Str) :
    HandleImageInput (none, none) uploader = .nilPanic ∧
    HandleTextInput (none, none) uploader = .nilPanic ∧
    (∀ t, HandleImageInput (some t, none) uploader =
      .ok { t with createdBy := uploader }) ∧
    (∀ t, HandleTextInput (some t, none) uploader =
      .ok { t with createdBy := uploader }) ∧
    (∀ r e, HandleImageInput (r, some e) uploader = .fail e) ∧
    (∀ r e, HandleTextInput (r, some e) uploader = .fail e) :=
  ⟨rfl, rfl, fun _ => rfl, fun _ => rfl, fun _ _ => rfl, fun _ _ => rfl⟩

end MoneyTracker
